import Mathlib

/-!
Shallow embedding of `datascience/predicates.py`.

The module defines a registry class `are` of predicate factories, a wrapper
class `_combinable` that supports `&`, `|`, unary `-` and `^`, a helper
`_not`, and a near-equality helper `_equal_or_float_equal` built on
`np.nextafter`.

Modelling decisions:

* Scalar cell values are modelled by `Value`: either a real number or a
  string.  Finite IEEE-754 doubles (and the Python reals compared against
  them) are modelled by their *monotone integer index*: the map sending a
  finite double to an integer such that the order of doubles agrees with the
  order of indices and `np.nextafter` toward a larger (smaller) value adds
  (subtracts) exactly 1.  For a nonnegative double this index is its raw
  IEEE-754 bit pattern read as an integer; `0.0 ↦ 0`,
  `1.0 ↦ 4607182418800017408` (0x3FF0000000000000) and
  `2.0 ↦ 4611686018427387904` (0x4000000000000000).
* Strings are lists of characters; Python `in` on strings is substring
  containment, `<` is lexicographic.
* A Python expression that may raise is modelled by `Option Bool`: `none`
  is a raised exception (`TypeError` from comparing incompatible types,
  `AttributeError` from a missing `.f` attribute), `some b` a normal result.
  Python `and` / `or` / `not` on such expressions are `pyAnd` / `pyOr` /
  `pyNot`, which short-circuit exactly as Python does.
-/

namespace Predicates

/-- Monotone index of the double `0.0` (bit pattern 0x0000000000000000). -/
def zeroIdx : Int := 0

/-- Monotone index of the double `1.0` (bit pattern 0x3FF0000000000000). -/
def oneIdx : Int := 4607182418800017408

/-- Monotone index of the double `2.0` (bit pattern 0x4000000000000000). -/
def twoIdx : Int := 4611686018427387904

/-- `np.nextafter x t` on the monotone index model: the representable double
adjacent to `x` in the direction of the target `t`, and `x` itself when
`x = t`. -/
def nextafter (x t : Int) : Int :=
  if x = t then x else if x < t then x + 1 else x - 1

/-- A Python scalar cell value: a real number (int or float, on the double
grid, by monotone index) or a string. -/
inductive Value where
  | real (r : Int)
  | str (s : List Char)
deriving DecidableEq, Repr

/-- Lexicographic `<` on strings, as Python compares strings. -/
def listLt : List Char → List Char → Bool
  | [], [] => false
  | [], _ :: _ => true
  | _ :: _, [] => false
  | a :: as, b :: bs => decide (a < b) || (a == b && listLt as bs)

/-- Whether the first string is a prefix of the second. -/
def listIsPre : List Char → List Char → Bool
  | [], _ => true
  | _ :: _, [] => false
  | a :: as, b :: bs => a == b && listIsPre as bs

/-- Python substring containment `n in h` for strings: `n` occurs
contiguously within `h` (the empty string occurs in every string). -/
def isSubstr (n : List Char) : List Char → Bool
  | [] => n.isEmpty
  | c :: t => listIsPre n (c :: t) || isSubstr n t

/-- Python `x == y`: equality never raises; values of different types
compare unequal. -/
def veq : Value → Value → Bool
  | .real a, .real b => a == b
  | .str a, .str b => a == b
  | _, _ => false

/-- Python `x < y`: defined within one type, a `TypeError` (`none`) across
types. -/
def vlt : Value → Value → Option Bool
  | .real a, .real b => some (decide (a < b))
  | .str a, .str b => some (listLt a b)
  | _, _ => none

/-- Python `x <= y`. -/
def vle : Value → Value → Option Bool
  | .real a, .real b => some (decide (a ≤ b))
  | .str a, .str b => some (listLt a b || a == b)
  | _, _ => none

/-- Python `x > y`. -/
def vgt : Value → Value → Option Bool
  | .real a, .real b => some (decide (b < a))
  | .str a, .str b => some (listLt b a)
  | _, _ => none

/-- Python `x >= y`. -/
def vge : Value → Value → Option Bool
  | .real a, .real b => some (decide (b ≤ a))
  | .str a, .str b => some (listLt b a || a == b)
  | _, _ => none

/-- Python `a in b`: substring test for strings, `TypeError` otherwise. -/
def vin : Value → Value → Option Bool
  | .str a, .str b => some (isSubstr a b)
  | _, _ => none

/-- Python `a and b` on possibly-raising boolean expressions: `a` first;
a false `a` short-circuits, so `b` is not reached. -/
def pyAnd (a b : Option Bool) : Option Bool :=
  match a with
  | none => none
  | some true => b
  | some false => some false

/-- Python `a or b`: a true `a` short-circuits, so `b` is not reached. -/
def pyOr (a b : Option Bool) : Option Bool :=
  match a with
  | none => none
  | some true => some true
  | some false => b

/-- Python `not a`. -/
def pyNot (a : Option Bool) : Option Bool :=
  a.map fun b => !b

/-- `_equal_or_float_equal(x, y)` from the source: for real `x`, the test
`x == y or np.nextafter(x, 1) == y or np.nextafter(x, 0) == y`; for
non-real `x`, plain `x == y`. -/
def equal_or_float_equal (x y : Value) : Bool :=
  match x with
  | .real r =>
      veq (.real r) y || veq (.real (nextafter r oneIdx)) y ||
        veq (.real (nextafter r zeroIdx)) y
  | .str s => veq (.str s) y

/-- The near-equality policy as the claim words it: `x == y`, or the
representable value immediately ABOVE `x` equals `y`, or the representable
value immediately BELOW `x` equals `y` (in the index model, `r + 1` and
`r - 1`); exact equality for non-real `x`.  Stated from the claim, to be
compared with `equal_or_float_equal`, which the source defines via
`np.nextafter` toward the targets 1 and 0. -/
def spec_near_equal (x y : Value) : Bool :=
  match x with
  | .real r => veq (.real r) y || veq (.real (r + 1)) y || veq (.real (r - 1)) y
  | .str s => veq (.str s) y

/-- The `_combinable` wrapper: a one-argument predicate, whose invocation
may raise (`none`). -/
structure Combinable (α : Type) where
  f : α → Option Bool

variable {α : Type}

/-- `__call__`: invoking the wrapper delegates to the wrapped function. -/
def Combinable.call (p : Combinable α) (x : α) : Option Bool :=
  p.f x

/-- The right operand of `&` / `|` as Python receives it: either another
`_combinable` wrapper or a bare function with no `.f` attribute. -/
inductive Operand (α : Type) where
  | comb (c : Combinable α)
  | bare (g : α → Option Bool)

/-- The attribute access `other.f`: succeeds on a wrapper, raises
`AttributeError` (`none`) on a bare function. -/
def dotF : Operand α → Option (α → Option Bool)
  | .comb c => some c.f
  | .bare _ => none

/-- `__and__`: `_combinable(lambda x: self.f(x) and other.f(x))`.  The
attribute access `other.f` happens inside the lambda, after `self.f(x)`
has evaluated truthy. -/
def andGen (p : Combinable α) (o : Operand α) : Combinable α :=
  ⟨fun x =>
    pyAnd (p.f x)
      (match dotF o with
       | some g => g x
       | none => none)⟩

/-- `__or__`: `_combinable(lambda x: self.f(x) or other.f(x))`. -/
def orGen (p : Combinable α) (o : Operand α) : Combinable α :=
  ⟨fun x =>
    pyOr (p.f x)
      (match dotF o with
       | some g => g x
       | none => none)⟩

/-- `p & q` for two wrappers. -/
def Combinable.and (p q : Combinable α) : Combinable α :=
  andGen p (.comb q)

/-- `p | q` for two wrappers. -/
def Combinable.or (p q : Combinable α) : Combinable α :=
  orGen p (.comb q)

/-- `__neg__`: `_combinable(lambda x: not self.f(x))`. -/
def Combinable.neg (p : Combinable α) : Combinable α :=
  ⟨fun x => pyNot (p.f x)⟩

/-- `__xor__`: `(self & -other) | (-self & other)`, composed from the
other combinators exactly as the source writes it. -/
def Combinable.xor (p q : Combinable α) : Combinable α :=
  (p.and q.neg).or (p.neg.and q)

namespace are

/-- `are.equal_to(y)`. -/
def equal_to (y : Value) : Combinable Value :=
  ⟨fun x => some (equal_or_float_equal x y)⟩

/-- `are.above(y)`: `lambda x: x > y`. -/
def above (y : Value) : Combinable Value :=
  ⟨fun x => vgt x y⟩

/-- `are.below(y)`: `lambda x: x < y`. -/
def below (y : Value) : Combinable Value :=
  ⟨fun x => vlt x y⟩

/-- `are.above_or_equal_to(y)`:
`lambda x: x >= y or _equal_or_float_equal(x, y)`. -/
def above_or_equal_to (y : Value) : Combinable Value :=
  ⟨fun x => pyOr (vge x y) (some (equal_or_float_equal x y))⟩

/-- `are.below_or_equal_to(y)`:
`lambda x: x <= y or _equal_or_float_equal(x, y)`. -/
def below_or_equal_to (y : Value) : Combinable Value :=
  ⟨fun x => pyOr (vle x y) (some (equal_or_float_equal x y))⟩

/-- `are.strictly_between(y, z)`: `lambda x: y < x < z` (the chained
comparison evaluates `y < x` first and short-circuits on false). -/
def strictly_between (y z : Value) : Combinable Value :=
  ⟨fun x => pyAnd (vlt y x) (vlt x z)⟩

/-- `are.between(y, z)`:
`lambda x: (y <= x < z) or _equal_or_float_equal(x, y)`. -/
def between (y z : Value) : Combinable Value :=
  ⟨fun x => pyOr (pyAnd (vle y x) (vlt x z)) (some (equal_or_float_equal x y))⟩

/-- `are.between_or_equal_to(y, z)`: `lambda x: (y <= x <= z) or
_equal_or_float_equal(x, y) or _equal_or_float_equal(x, z)`. -/
def between_or_equal_to (y z : Value) : Combinable Value :=
  ⟨fun x =>
    pyOr (pyOr (pyAnd (vle y x) (vle x z)) (some (equal_or_float_equal x y)))
      (some (equal_or_float_equal x z))⟩

/-- `are.containing(substring)`: `lambda x: substring in x`. -/
def containing (substring : Value) : Combinable Value :=
  ⟨fun x => vin substring x⟩

/-- `are.contained_in(superstring)`: `lambda x: x in superstring`. -/
def contained_in (superstring : Value) : Combinable Value :=
  ⟨fun x => vin x superstring⟩

end are

/-- `_not(f)` for one-operand factories: `lambda *args: -f(*args)`. -/
def notF1 (g : Value → Combinable Value) : Value → Combinable Value :=
  fun y => (g y).neg

/-- `_not(f)` for two-operand factories. -/
def notF2 (g : Value → Value → Combinable Value) :
    Value → Value → Combinable Value :=
  fun y z => (g y z).neg

namespace are

/-- `are.not_equal_to = _not(are.equal_to)`. -/
def not_equal_to : Value → Combinable Value := notF1 equal_to

/-- `are.not_above = are.below_or_equal_to` (alias assignment). -/
def not_above : Value → Combinable Value := below_or_equal_to

/-- `are.not_below = are.above_or_equal_to` (alias assignment). -/
def not_below : Value → Combinable Value := above_or_equal_to

/-- `are.not_below_or_equal_to = are.above` (alias assignment). -/
def not_below_or_equal_to : Value → Combinable Value := above

/-- `are.not_above_or_equal_to = are.below` (alias assignment). -/
def not_above_or_equal_to : Value → Combinable Value := below

/-- `are.not_strictly_between = _not(are.strictly_between)`. -/
def not_strictly_between : Value → Value → Combinable Value :=
  notF2 strictly_between

/-- `are.not_between = _not(are.between)`. -/
def not_between : Value → Value → Combinable Value := notF2 between

/-- `are.not_between_or_equal_to = _not(are.between_or_equal_to)`. -/
def not_between_or_equal_to : Value → Value → Combinable Value :=
  notF2 between_or_equal_to

/-- `are.not_containing = _not(are.containing)`. -/
def not_containing : Value → Combinable Value := notF1 containing

/-- `are.not_contained_in = _not(are.contained_in)`. -/
def not_contained_in : Value → Combinable Value := notF1 contained_in

end are

/-- The external filtering engine's row selection: keep the values on which
the predicate returns `True`. -/
def select (p : Combinable Value) (col : List Value) : List Value :=
  col.filter fun v => p.call v == some true

/-- The `Sizes` column of the docstring example table. -/
def sizes : List Value :=
  [.str ['S'], .str ['M'], .str ['L'], .str ['X', 'L']]

/-! Helper lemmas shared by the claim theorems. -/

/-- The doubles 0.0 and 1.0 are ordered in the index model. -/
lemma zero_lt_one_idx : zeroIdx < oneIdx := by decide

/-- Invoking `p & q` computes the Python expression `p.f(x) and q.f(x)`. -/
lemma and_call (p q : Combinable α) (x : α) :
    (p.and q).call x = pyAnd (p.call x) (q.call x) := rfl

/-- Invoking `p | q` computes the Python expression `p.f(x) or q.f(x)`. -/
lemma or_call (p q : Combinable α) (x : α) :
    (p.or q).call x = pyOr (p.call x) (q.call x) := rfl

/-- Invoking `-p` computes the Python expression `not p.f(x)`. -/
lemma neg_call (p : Combinable α) (x : α) :
    p.neg.call x = pyNot (p.call x) := rfl

/-- Invoking `p ^ q` computes exclusive-or of the two results, propagating
a raised exception from either operand (left one first). -/
lemma xor_call (p q : Combinable α) (x : α) :
    (p.xor q).call x =
      (p.call x).bind fun a => (q.call x).map fun b => a != b := by
  rcases hp : p.f x with _ | a
  · simp [Combinable.xor, Combinable.or, Combinable.and, Combinable.neg,
      Combinable.call, orGen, andGen, dotF, pyOr, pyAnd, pyNot, hp]
  · rcases hq : q.f x with _ | b
    · cases a <;>
        simp [Combinable.xor, Combinable.or, Combinable.and, Combinable.neg,
          Combinable.call, orGen, andGen, dotF, pyOr, pyAnd, pyNot, hp, hq]
    · cases a <;> cases b <;>
        simp [Combinable.xor, Combinable.or, Combinable.and, Combinable.neg,
          Combinable.call, orGen, andGen, dotF, pyOr, pyAnd, pyNot, hp, hq]

/-- The empty string is a substring of every string. -/
lemma isSubstr_nil_left (s : List Char) : isSubstr [] s = true := by
  cases s <;> simp [isSubstr, listIsPre]

/-- Near-equality fails when the target differs from the candidate and from
both of its adjacent representable values. -/
lemma near_far {u v : Int} (h1 : v ≠ u) (h2 : v ≠ u + 1) (h3 : v ≠ u - 1) :
    equal_or_float_equal (.real u) (.real v) = false := by
  simp only [equal_or_float_equal, veq, nextafter]
  split_ifs <;>
    simp only [Bool.or_eq_false_iff, beq_eq_false_iff_ne, ne_eq] <;> omega

/-- For a candidate at or above 1.0, both `np.nextafter` calls stay at or
below the candidate, so near-equality fails whenever the target differs
from the candidate and from the value just below it — even when the target
is the value just above it. -/
lemma near_high {u v : Int} (hu : oneIdx ≤ u) (h1 : v ≠ u) (h2 : v ≠ u - 1) :
    equal_or_float_equal (.real u) (.real v) = false := by
  have hz := zero_lt_one_idx
  simp only [equal_or_float_equal, veq, nextafter]
  split_ifs <;>
    simp only [Bool.or_eq_false_iff, beq_eq_false_iff_ne, ne_eq] <;> omega

/-! Claim theorems. -/

/-- C3, counterexample: the claim says `contained_in('MXL')` selects exactly
{"M","XL"} from the sizes column, and `not_contained_in('MXL')` selects
exactly {"S","L"}; but "L" is itself a substring of "MXL", so
`contained_in('MXL')` accepts "L" and `not_contained_in('MXL')` rejects
it. -/
theorem c3_contained_in_counterexample :
    (are.contained_in (.str ['M', 'X', 'L'])).call (.str ['L']) = some true ∧
    (are.not_contained_in (.str ['M', 'X', 'L'])).call (.str ['L']) =
      some false := by
  constructor <;> rfl

/-- C3 (amended): on the string column ["S","M","L","XL"],
`containing('L')` selects exactly {"L","XL"}, `contained_in('MXL')`
selects exactly {"M","L","XL"}, and `not_contained_in('MXL')` selects
exactly {"S"} — as the docstring of the source module itself shows. -/
theorem c3_string_scenario :
    select (are.containing (.str ['L'])) sizes =
      [.str ['L'], .str ['X', 'L']] ∧
    select (are.contained_in (.str ['M', 'X', 'L'])) sizes =
      [.str ['M'], .str ['L'], .str ['X', 'L']] ∧
    select (are.not_contained_in (.str ['M', 'X', 'L'])) sizes =
      [.str ['S']] := by
  refine ⟨?_, ?_, ?_⟩ <;> rfl

/-- C4: for all combinable predicates `p`, `q` and every value `x`,
`(p & q)(x)` is `p(x) and q(x)`, `(p | q)(x)` is `p(x) or q(x)`,
`(-p)(x)` is `not p(x)`, and `(p ^ q)(x)` — built by composing and/or/not,
not as a primitive xor — equals `p(x) != q(x)` (exceptions propagating
left to right). -/
theorem c4_combination_algebra (p q : Combinable α) (x : α) :
    (p.and q).call x = pyAnd (p.call x) (q.call x) ∧
    (p.or q).call x = pyOr (p.call x) (q.call x) ∧
    p.neg.call x = pyNot (p.call x) ∧
    (p.xor q).call x =
      ((p.call x).bind fun a => (q.call x).map fun b => a != b) :=
  ⟨and_call p q x, or_call p q x, neg_call p x, xor_call p q x⟩

/-- C5: `not_above` is the very same function as `below_or_equal_to` (and
`not_below` as `above_or_equal_to`, `not_below_or_equal_to` as `above`,
`not_above_or_equal_to` as `below`), so the predicate built under the
negated name and the one built under its alias target agree on every
operand and every tested value. -/
theorem c5_alias_identity :
    are.not_above = are.below_or_equal_to ∧
    are.not_below = are.above_or_equal_to ∧
    are.not_below_or_equal_to = are.above ∧
    are.not_above_or_equal_to = are.below ∧
    (∀ y x : Value, (are.not_above y).call x =
      (are.below_or_equal_to y).call x) ∧
    (∀ y x : Value, (are.not_below y).call x =
      (are.above_or_equal_to y).call x) ∧
    (∀ y x : Value, (are.not_below_or_equal_to y).call x =
      (are.above y).call x) ∧
    (∀ y x : Value, (are.not_above_or_equal_to y).call x =
      (are.below y).call x) :=
  ⟨rfl, rfl, rfl, rfl, fun _ _ => rfl, fun _ _ => rfl, fun _ _ => rfl,
    fun _ _ => rfl⟩

/-- C6: conjunction and disjunction short-circuit: when `p(x)` is false,
`(p & q)(x)` returns false without evaluating `q` (so a `q` that raises on
invocation causes no error), and when `p(x)` is true, `(p | q)(x)` returns
true without evaluating `q`. -/
theorem c6_short_circuit (p q : Combinable α) (x : α) :
    (p.call x = some false → (p.and q).call x = some false) ∧
    (p.call x = some true → (p.or q).call x = some true) := by
  refine ⟨fun h => ?_, fun h => ?_⟩
  · show pyAnd (p.f x) (q.f x) = some false
    rw [show p.f x = some false from h]
    rfl
  · show pyOr (p.f x) (q.f x) = some true
    rw [show p.f x = some true from h]
    rfl

/-- C6, witness: with a raising right operand (`none` on every input),
`p & q` still returns false where `p` is false and `p | q` still returns
true where `p` is true. -/
theorem c6_short_circuit_witness :
    ((⟨fun _ => some false⟩ : Combinable Int).and ⟨fun _ => none⟩).call 0 =
      some false ∧
    ((⟨fun _ => some true⟩ : Combinable Int).or ⟨fun _ => none⟩).call 0 =
      some true :=
  ⟨(c6_short_circuit ⟨fun _ => some false⟩ ⟨fun _ => none⟩ 0).1 rfl,
   (c6_short_circuit ⟨fun _ => some true⟩ ⟨fun _ => none⟩ 0).2 rfl⟩

/-- C8: `strictly_between(y, z)(x)` is true iff `y < x < z`, with no
near-equality forgiveness at either bound; in particular it is false at
`x = y` and at `x = z`. -/
theorem c8_strictly_between (x y z : Int) :
    (are.strictly_between (.real y) (.real z)).call (.real x) =
      some (decide (y < x ∧ x < z)) ∧
    (are.strictly_between (.real y) (.real z)).call (.real y) = some false ∧
    (are.strictly_between (.real y) (.real z)).call (.real z) = some false := by
  have main : ∀ w : Int,
      (are.strictly_between (.real y) (.real z)).call (.real w) =
        some (decide (y < w ∧ w < z)) := by
    intro w
    by_cases h1 : y < w
    · by_cases h2 : w < z <;>
        simp [are.strictly_between, Combinable.call, pyAnd, vlt, h1, h2]
    · simp [are.strictly_between, Combinable.call, pyAnd, vlt, h1]
  refine ⟨main x, ?_, ?_⟩
  · rw [main y]; simp
  · rw [main z]; simp

/-- C10: the empty-string operand makes the membership predicates
universally true over strings: `containing('')` accepts every string, and
`contained_in(s)` accepts the empty string for every string `s`. -/
theorem c10_empty_string (s : List Char) :
    (are.containing (.str [])).call (.str s) = some true ∧
    (are.contained_in (.str s)).call (.str []) = some true := by
  constructor <;>
    simp [are.containing, are.contained_in, Combinable.call, vin,
      isSubstr_nil_left]

/-- C1, counterexample: the claim says near-equality accepts the
representable value immediately ABOVE the candidate; but the source checks
`np.nextafter(x, 1)` and `np.nextafter(x, 0)`, which for a candidate above
1.0 both move DOWNWARD.  At candidate 2.0 and target 2.0000000000000004
(the double one ULP above 2.0, index `twoIdx + 1`), the spec-worded
predicate is true while the source's `_equal_or_float_equal` is false. -/
theorem c1_near_equal_counterexample :
    equal_or_float_equal (.real twoIdx) (.real (twoIdx + 1)) = false ∧
    spec_near_equal (.real twoIdx) (.real (twoIdx + 1)) = true := by
  constructor <;> decide

/-- C1 (amended): for real `x`, near-equal(x, y) is true iff `x == y`, or
the representable neighbor of `x` in the direction of 1 equals `y`, or the
neighbor in the direction of 0 equals `y` (`np.nextafter(x, 1)` and
`np.nextafter(x, 0)`); these are the upward and downward neighbors — as
the claim words it — exactly when `0 < x < 1`; for non-real `x`,
near-equality is exact equality `x == y`. -/
theorem c1_near_equal :
    (∀ r s : Int, equal_or_float_equal (.real r) (.real s) =
        (r == s || nextafter r oneIdx == s || nextafter r zeroIdx == s)) ∧
    (∀ (r : Int) (t : List Char),
        equal_or_float_equal (.real r) (.str t) = false) ∧
    (∀ (t : List Char) (y : Value),
        equal_or_float_equal (.str t) y = veq (.str t) y) ∧
    (∀ r s : Int, zeroIdx < r → r < oneIdx →
        equal_or_float_equal (.real r) (.real s) =
          spec_near_equal (.real r) (.real s)) := by
  refine ⟨fun r s => rfl, fun r t => rfl, fun t y => rfl,
    fun r s h0 h1 => ?_⟩
  have hne1 : ¬ r = oneIdx := by omega
  have hne0 : ¬ r = zeroIdx := by omega
  have hnlt : ¬ r < zeroIdx := by omega
  simp [equal_or_float_equal, spec_near_equal, veq, nextafter, hne1, h1,
    hne0, hnlt]

/-- C1, witness for the amended theorem: at the candidate with index 1
(the smallest positive double, strictly between 0.0 and 1.0), the source's
near-equality coincides with the spec-worded one. -/
theorem c1_near_equal_witness :
    equal_or_float_equal (.real 1) (.real 2) =
      spec_near_equal (.real 1) (.real 2) :=
  c1_near_equal.2.2.2 1 2 (by decide) (by decide)

/-- C2, counterexample: the claim says that a floating-point `x` lying one
ULP below `y` still satisfies `above_or_equal_to(y)`; but at `x = 2.0` and
`y` one ULP above it (index `twoIdx + 1`, to which the neighbor of `x`
toward `y` steps), the predicate returns false, because both
`np.nextafter(x, 1)` and `np.nextafter(x, 0)` move downward for `x` above
1.0. -/
theorem c2_above_or_equal_counterexample :
    (are.above_or_equal_to (.real (twoIdx + 1))).call (.real twoIdx) =
      some false ∧
    nextafter twoIdx (twoIdx + 1) = twoIdx + 1 := by
  constructor <;> decide

/-- C2 (amended): `above_or_equal_to(y)(x)` is true iff `x >= y` or
near-equal(x, y), and `below_or_equal_to(y)(x)` iff `x <= y` or
near-equal(x, y); a real `x` one ULP below `y` still counts as at-or-above
exactly when `x < 1` (there the neighbor of `x` toward 1 is its upward
neighbor), and no longer does when `x >= 1`. -/
theorem c2_above_or_equal :
    (∀ r s : Int, (are.above_or_equal_to (.real s)).call (.real r) =
        some (decide (s ≤ r) || equal_or_float_equal (.real r) (.real s))) ∧
    (∀ r s : Int, (are.below_or_equal_to (.real s)).call (.real r) =
        some (decide (r ≤ s) || equal_or_float_equal (.real r) (.real s))) ∧
    (∀ r : Int, r < oneIdx →
        (are.above_or_equal_to (.real (r + 1))).call (.real r) = some true) ∧
    (∀ r : Int, oneIdx ≤ r →
        (are.above_or_equal_to (.real (r + 1))).call (.real r) =
          some false) := by
  refine ⟨fun r s => ?_, fun r s => ?_, fun r h => ?_, fun r h => ?_⟩
  · by_cases hc : s ≤ r <;>
      simp [are.above_or_equal_to, Combinable.call, pyOr, vge, hc]
  · by_cases hc : r ≤ s <;>
      simp [are.below_or_equal_to, Combinable.call, pyOr, vle, hc]
  · have hne : ¬ r = oneIdx := by omega
    have hle : ¬ r + 1 ≤ r := by omega
    simp [are.above_or_equal_to, Combinable.call, pyOr, vge,
      equal_or_float_equal, veq, nextafter, hne, h, hle]
  · have hle : ¬ r + 1 ≤ r := by omega
    have hfar : equal_or_float_equal (.real r) (.real (r + 1)) = false :=
      near_high h (by omega) (by omega)
    simp [are.above_or_equal_to, Combinable.call, pyOr, vge, hle, hfar]

/-- C2, witness for the amended theorem: one ULP below a target under 1.0
the predicate accepts, and one ULP below a target above 1.0 it rejects. -/
theorem c2_above_or_equal_witness :
    (are.above_or_equal_to (.real (5 + 1))).call (.real 5) = some true ∧
    (are.above_or_equal_to (.real (oneIdx + 1))).call (.real oneIdx) =
      some false :=
  ⟨c2_above_or_equal.2.2.1 5 (by decide),
   c2_above_or_equal.2.2.2 oneIdx (by decide)⟩

/-- C7: `between(y, z)(x)` is true iff `(y <= x < z)` or near-equal(x, y)
— only the lower bound receives near-equality forgiveness; in particular
it is true at `x = y` and false at `x = z` whenever `z` is not within one
ULP of `y`. -/
theorem c7_between (x y z : Int) :
    (are.between (.real y) (.real z)).call (.real x) =
      some (decide (y ≤ x ∧ x < z) ||
        equal_or_float_equal (.real x) (.real y)) ∧
    (are.between (.real y) (.real z)).call (.real y) = some true ∧
    (y ≠ z → y ≠ z + 1 → y ≠ z - 1 →
      (are.between (.real y) (.real z)).call (.real z) = some false) := by
  have main : ∀ w : Int,
      (are.between (.real y) (.real z)).call (.real w) =
        some (decide (y ≤ w ∧ w < z) ||
          equal_or_float_equal (.real w) (.real y)) := by
    intro w
    by_cases h1 : y ≤ w
    · by_cases h2 : w < z <;>
        simp [are.between, Combinable.call, pyOr, pyAnd, vle, vlt, h1, h2]
    · simp [are.between, Combinable.call, pyOr, pyAnd, vle, vlt, h1]
  refine ⟨main x, ?_, fun h1 h2 h3 => ?_⟩
  · rw [main y]
    simp [equal_or_float_equal, veq]
  · rw [main z]
    have hz : ¬ (y ≤ z ∧ z < z) := by omega
    have hfar : equal_or_float_equal (.real z) (.real y) = false :=
      near_far h1 h2 h3
    simp [hz, hfar]

/-- C7, witness: with bounds 10 and 20 (more than one ULP apart), the
predicate accepts the lower bound and rejects the upper. -/
theorem c7_between_witness :
    (are.between (.real 10) (.real 20)).call (.real 10) = some true ∧
    (are.between (.real 10) (.real 20)).call (.real 20) = some false :=
  ⟨(c7_between 0 10 20).2.1,
   (c7_between 0 10 20).2.2 (by decide) (by decide) (by decide)⟩

/-- C9: the combination operators read the right operand's wrapped-function
attribute, so combining with a bare unwrapped function yields a predicate
whose invocation raises (whenever the left operand does not short-circuit
it away); when both operands are combinable wrappers whose invocations
never raise, no combination's invocation raises. -/
theorem c9_bare_operand (p q : Combinable α) (g : α → Option Bool) (x : α) :
    (p.call x = some true → (andGen p (.bare g)).call x = none) ∧
    ((∀ z, (p.call z).isSome) → (∀ z, (q.call z).isSome) →
      (((p.and q).call x).isSome ∧ ((p.or q).call x).isSome ∧
        (p.neg.call x).isSome ∧ ((p.xor q).call x).isSome)) := by
  constructor
  · intro h
    show pyAnd (p.f x) none = none
    rw [show p.f x = some true from h]
    rfl
  · intro hp hq
    obtain ⟨a, ha⟩ := Option.isSome_iff_exists.mp (hp x)
    obtain ⟨b, hb⟩ := Option.isSome_iff_exists.mp (hq x)
    have ha2 : p.f x = some a := ha
    have hb2 : q.f x = some b := hb
    refine ⟨?_, ?_, ?_, ?_⟩
    · show (pyAnd (p.f x) (q.f x)).isSome
      rw [ha2, hb2]
      cases a <;> rfl
    · show (pyOr (p.f x) (q.f x)).isSome
      rw [ha2, hb2]
      cases a <;> rfl
    · show (pyNot (p.f x)).isSome
      rw [ha2]
      rfl
    · rw [xor_call]
      show ((p.f x).bind fun a => (q.f x).map fun b => a != b).isSome
      rw [ha2, hb2]
      rfl

/-- C9, witness: a wrapper that is true at 0 combined with a bare raising
function raises at 0, while the xor of two total wrappers returns a
defined result there. -/
theorem c9_bare_operand_witness :
    (andGen (⟨fun _ => some true⟩ : Combinable Int)
      (.bare fun _ => none)).call 0 = none ∧
    (((⟨fun _ => some true⟩ : Combinable Int).xor
      ⟨fun _ => some false⟩).call 0).isSome :=
  ⟨(c9_bare_operand (⟨fun _ => some true⟩ : Combinable Int)
      ⟨fun _ => some false⟩ (fun _ => none) 0).1 rfl,
   ((c9_bare_operand (⟨fun _ => some true⟩ : Combinable Int)
      ⟨fun _ => some false⟩ (fun _ => none) 0).2
      (fun _ => rfl) (fun _ => rfl)).2.2.2⟩

end Predicates
